import Mathlib

/-!
Shallow embedding of the orchestration core of the rmmz-corescript-dev
repository (src/rmmz_agents.py, src/rmmz_schemas.py, src/rmmz_tools.py).

Modelling conventions:
* Python strings are Lean `String`s; the handful of string methods the code
  calls (`replace`, `lower`, `title`, `startswith`) are re-implemented as
  structurally recursive functions over the character list so that the kernel
  can evaluate them ("py" prefix marks the re-implementations).
* `implementation_progress` (a Python float only ever combined by `+= 0.1`)
  is modelled as a rational number.
* The mutable pydantic state threaded through each agent's `process` is
  modelled by explicit state passing; mutation of a task object that is
  aliased from the queue is modelled by replacing the first matching queue
  entry in place.
* The external record store / LLM calls are out of scope of the orchestration
  claims; a worker's single creation call per step is abstracted by a
  `ToolResult` oracle (`none` models `self.tools is None`).  The record-store
  allocation logic itself (rmmz_tools.py) is embedded separately below as
  pure functions over in-memory record families (the JSON file I/O around it
  is not modelled).
* Opaque scratch fields never read by the core (`knowledge_base`,
  `working_data`, `data`, the LLM prompt plumbing, `print` logging) are
  elided.
-/

/-! ### String helpers (Python `str` methods, ASCII-faithful) -/

/-- Is `p` an initial segment of `l`? (used by `pyReplace` and `pyStartsWith`). -/
def leadsList : List Char → List Char → Bool
  | [], _ => true
  | _ :: _, [] => false
  | p :: ps, c :: cs => p == c && leadsList ps cs

/-- Fuel-indexed worker for `pyReplace`; with fuel `l.length` it performs
Python's left-to-right non-overlapping `str.replace` for a non-empty pattern
(the source only ever replaces the non-empty patterns `"create_"` and `"_"`). -/
def pyReplaceAux (pat repl : List Char) : Nat → List Char → List Char
  | 0, rest => rest
  | Nat.succ n, l =>
    match l with
    | [] => []
    | c :: cs =>
      if leadsList pat l && !pat.isEmpty then
        repl ++ pyReplaceAux pat repl n (List.drop pat.length l)
      else
        c :: pyReplaceAux pat repl n cs

/-- Python `s.replace(pat, repl)` for non-empty `pat`. -/
def pyReplace (s pat repl : String) : String :=
  String.mk (pyReplaceAux pat.data repl.data s.data.length s.data)

/-- Python `s.lower()` (ASCII). -/
def pyLower (s : String) : String :=
  String.mk (s.data.map Char.toLower)

/-- Python `s.startswith(p)`. -/
def pyStartsWith (s p : String) : Bool :=
  leadsList p.data s.data

/-- Split a character list on single spaces, keeping empty chunks, as
Python `s.split(" ")` does. -/
def splitSpacesAux : List Char → List Char → List (List Char)
  | [], acc => [acc.reverse]
  | c :: cs, acc => if c == ' ' then acc.reverse :: splitSpacesAux cs [] else splitSpacesAux cs (c :: acc)

/-- Title-case one word: first character upper-cased, the rest lower-cased. -/
def pyTitleWord : List Char → List Char
  | [] => []
  | c :: cs => c.toUpper :: cs.map Char.toLower

/-- Re-join space-separated chunks. -/
def joinSpaces : List (List Char) → List Char
  | [] => []
  | [w] => w
  | w :: ws => w ++ ' ' :: joinSpaces ws

/-- Python `s.title()` for space-separated alphabetic words (the only shape
the source feeds it: task ids with `"_"` already replaced by `" "`). -/
def pyTitle (s : String) : String :=
  String.mk (joinSpaces ((splitSpacesAux s.data []).map pyTitleWord))

/-! ### Data model (src/rmmz_schemas.py) -/

/-- `AgentTask` (rmmz_schemas.py).  The opaque `data` map is elided; the
`result` payload (a small str→int dict in the source) is a key/value list. -/
structure AgentTask where
  id : String
  type : String
  description : String
  priority : Int := 1
  dependencies : List String := []
  status : String := "pending"
  assigned_to : Option String := none
  result : Option (List (String × Int)) := none
deriving DecidableEq, Repr

/-- `GameMetadata` (rmmz_schemas.py); the fixed resolution dict is elided. -/
structure GameMetadata where
  title : String
  version : String := "1.0.0"
  creator : String := ""
  description : String := ""
deriving DecidableEq, Repr

/-- `GameLocation` (rmmz_schemas.py); fields never read or written by the
orchestration core (music, encounters, features, notes) are elided. -/
structure GameLocation where
  id : Option Int := none
  name : String
  description : String := ""
  width : Int := 20
  height : Int := 15
  tileset_id : Int := 1
deriving DecidableEq, Repr

/-- `CutsceneData` (rmmz_schemas.py); only `name` is ever read by the core,
the remaining content fields are elided. -/
structure CutsceneData where
  id : Option Int := none
  name : String
  description : String := ""
deriving DecidableEq, Repr

/-- `GameDataSchema` (rmmz_schemas.py).  Collections the core never touches
(characters, quests, dialogues, battles, variables, switches) are kept as
opaque name lists so frame properties stay expressible. -/
structure GameDataSchema where
  metadata : GameMetadata
  locations : List GameLocation := []
  characters : List String := []
  quests : List String := []
  dialogues : List String := []
  cutscenes : List CutsceneData := []
  battles : List String := []
deriving DecidableEq, Repr

/-- The dict appended to `events_created` by the EventEngineer. -/
structure CreatedEvent where
  id : Int
  map_id : Int
  name : String
  type : String
deriving DecidableEq, Repr

/-- `AgentState` base fields (rmmz_schemas.py); the opaque
`knowledge_base` / `working_data` maps are elided. -/
structure AgentState where
  agent_id : String
  agent_type : String
  current_task : Option AgentTask := none
  completed_tasks : List String := []
deriving DecidableEq, Repr

/-- `DirectorAgentState` (rmmz_schemas.py); `agent_assignments` and the
per-key `implementation_progress` dict are never read by the core and elided. -/
structure DirectorAgentState extends AgentState where
  task_queue : List AgentTask := []
deriving DecidableEq, Repr

/-- `WorldBuilderAgentState` (rmmz_schemas.py); `maps_in_progress` and
`location_interpretations` are never touched and elided. -/
structure WorldBuilderAgentState extends AgentState where
  maps_created : List Int := []
deriving DecidableEq, Repr

/-- `EventEngineerAgentState` (rmmz_schemas.py). -/
structure EventEngineerAgentState extends AgentState where
  events_created : List CreatedEvent := []
  dialogue_created : List String := []
  cutscenes_created : List String := []
deriving DecidableEq, Repr

/-- `CombatSystemAgentState` (rmmz_schemas.py); `balance_metrics` elided. -/
structure CombatSystemAgentState extends AgentState where
  skills_created : List Int := []
  enemies_created : List Int := []
  troops_created : List Int := []
deriving DecidableEq, Repr

/-- `AssetManagerAgentState` (rmmz_schemas.py). -/
structure AssetManagerAgentState extends AgentState where
  assets_required : List (String × List String) := []
  assets_available : List (String × List String) := []
  asset_mappings : List (String × String) := []
deriving DecidableEq, Repr

/-- `TestingAgentState` (rmmz_schemas.py). -/
structure TestingAgentState extends AgentState where
  test_scenarios : List String := []
  issues_found : List String := []
deriving DecidableEq, Repr

/-- `GameImplementationState` (rmmz_schemas.py).  `log` is never appended to
by the source and kept as an opaque list. -/
structure GameImplementationState where
  game_data : GameDataSchema
  director : DirectorAgentState
  world_builder : Option WorldBuilderAgentState := none
  event_engineer : Option EventEngineerAgentState := none
  combat_system : Option CombatSystemAgentState := none
  asset_manager : Option AssetManagerAgentState := none
  tester : Option TestingAgentState := none
  current_stage : String := "planning"
  implementation_progress : ℚ := 0
  log : List String := []
deriving DecidableEq, Repr

/-- Outcome of the single external record-store creation call a worker makes
in one step: `ok i` models the call returning a freshly allocated id `i`,
`err` models the call raising (caught by the worker's `except`). -/
inductive ToolResult where
  | ok (id : Int)
  | err
deriving DecidableEq, Repr

/-! ### Generic list-mutation helper -/

/-- Replace the first element satisfying `p` with its image under `f`
(models Python's in-place mutation of the task object found by scanning the
queue, which is aliased from the queue list). -/
def replaceFirst (p : α → Bool) (f : α → α) : List α → List α
  | [] => []
  | x :: xs => if p x then f x :: xs else x :: replaceFirst p f xs

/-! ### Director (rmmz_agents.py, DirectorAgent.process) -/

/-- The first task the Director creates while planning (rmmz_agents.py:281). -/
def townTask : AgentTask :=
  { id := "create_starting_town"
    type := "map_creation"
    description := "Create the starting town map based on game design"
    priority := 1 }

/-- The second task the Director creates while planning (rmmz_agents.py:288). -/
def introCutsceneTask : AgentTask :=
  { id := "create_intro_cutscene"
    type := "cutscene_creation"
    description := "Create the intro cutscene for the game"
    priority := 2
    dependencies := ["create_starting_town"] }

/-- `DirectorAgent.process` (rmmz_agents.py:245).  The LLM chain and print are
state-free and elided; `state.director` is a required field of the schema so
the `if not state.director` lazy initialisation never fires and is elided.
While `current_stage == "planning"` the director installs the two-task batch
and advances the stage; otherwise the state is returned unchanged. -/
def director_process (s : GameImplementationState) : GameImplementationState :=
  if s.current_stage = "planning" then
    { s with
      director := { s.director with task_queue := [townTask, introCutsceneTask] }
      current_stage := "implementation" }
  else s

/-! ### WorldBuilder (rmmz_agents.py, WorldBuilderAgent.process) -/

/-- Default `WorldBuilderAgentState` built on first dispatch (rmmz_agents.py:314). -/
def initWorldBuilderState : WorldBuilderAgentState :=
  { agent_id := "world_builder", agent_type := "world_builder" }

/-- The WorldBuilder's queue scan predicate (rmmz_agents.py:325): a pending
`map_creation` task — no dependency check. -/
def wbPred (t : AgentTask) : Bool :=
  t.type == "map_creation" && t.status == "pending"

/-- Claiming a task (rmmz_agents.py:334): status to in_progress, assignee set. -/
def claimTask (roleId : String) (t : AgentTask) : AgentTask :=
  { t with status := "in_progress", assigned_to := some roleId }

/-- Marking the claimed task failed in the `except` branch
(rmmz_agents.py:417, 564). -/
def failTask (t : AgentTask) : AgentTask :=
  { t with status := "failed" }

/-- `task.id.replace("create_", "").replace("_", " ")` (rmmz_agents.py:339). -/
def wbLocName (t : AgentTask) : String :=
  pyReplace (pyReplace t.id "create_" "") "_" " "

/-- The default stub location materialised when the referenced location is
absent (rmmz_agents.py:348). -/
def wbStub (locName : String) : GameLocation :=
  { id := none
    name := pyTitle locName
    description := "A location called " ++ pyTitle locName
    width := 20
    height := 15
    tileset_id := 1 }

/-- Case-insensitive location lookup (rmmz_agents.py:341). -/
def wbFindLocation (gd : GameDataSchema) (locName : String) : Option GameLocation :=
  gd.locations.find? (fun l => pyLower l.name == pyLower locName)

/-- Location resolution (rmmz_agents.py:340-355): the found location, or the
stub appended to `game_data.locations`. -/
def wbResolveLocation (gd : GameDataSchema) (locName : String) :
    GameLocation × GameDataSchema :=
  match wbFindLocation gd locName with
  | some l => (l, gd)
  | none => (wbStub locName, { gd with locations := gd.locations ++ [wbStub locName] })

/-- The completed task value produced by the success branch
(rmmz_agents.py:401-402). -/
def completeWBTask (t : AgentTask) (mapId : Int) : AgentTask :=
  { t with status := "completed", result := some [("map_id", mapId)] }

/-- `WorldBuilderAgent.process` (rmmz_agents.py:310-419).  `tools = none`
models `self.tools is None` (the claim and location resolution still happen,
then the function returns); `some (.ok mapId)` models `create_map` returning
`mapId`; `some .err` models `create_map` raising, caught by the `except`
which only downgrades the task to failed (leaving `current_task` set, since
it aliases the same task object). -/
def world_builder_process (tools : Option ToolResult) (s : GameImplementationState) :
    GameImplementationState :=
  let wb := s.world_builder.getD initWorldBuilderState
  match s.director.task_queue.find? wbPred with
  | none => { s with world_builder := some wb }
  | some t =>
    let claimed := claimTask "world_builder" t
    let gd := (wbResolveLocation s.game_data (wbLocName t)).2
    let location := (wbResolveLocation s.game_data (wbLocName t)).1
    let queue1 := replaceFirst wbPred (fun _ => claimed) s.director.task_queue
    match tools with
    | none =>
      { s with
        game_data := gd
        director := { s.director with task_queue := queue1 }
        world_builder := some { wb with current_task := some claimed } }
    | some ToolResult.err =>
      { s with
        game_data := gd
        director := { s.director with
          task_queue := replaceFirst wbPred (fun _ => failTask claimed) s.director.task_queue }
        world_builder := some { wb with current_task := some (failTask claimed) } }
    | some (ToolResult.ok mapId) =>
      { s with
        game_data := { gd with
          locations := replaceFirst (fun l => l.name == location.name)
            (fun l => { l with id := some mapId }) gd.locations }
        director := { s.director with
          task_queue := queue1.filter (fun x => x.id != t.id)
          completed_tasks := s.director.completed_tasks ++ [t.id] }
        world_builder := some { wb with
          maps_created := wb.maps_created ++ [mapId]
          current_task := none
          completed_tasks := wb.completed_tasks ++ [t.id] }
        implementation_progress := s.implementation_progress + 1/10 }

/-! ### EventEngineer (rmmz_agents.py, EventEngineerAgent.process) -/

/-- Default `EventEngineerAgentState` built on first dispatch (rmmz_agents.py:431). -/
def initEventEngineerState : EventEngineerAgentState :=
  { agent_id := "event_engineer", agent_type := "event_engineer" }

/-- The task kinds the EventEngineer scans for (rmmz_agents.py:442). -/
def eeKinds : List String :=
  ["event_creation", "cutscene_creation", "dialogue_creation"]

/-- The EventEngineer's queue scan predicate (rmmz_agents.py:442-451): a
pending task of one of its kinds whose dependencies are all in the
director's `completed_tasks`. -/
def eePred (completed : List String) (t : AgentTask) : Bool :=
  eeKinds.contains t.type && t.status == "pending"
    && t.dependencies.all (fun d => completed.contains d)

/-- `state.game_data.locations[0].id if state.game_data.locations else 1`
(rmmz_agents.py:507).  A `none` result means the first location has no id yet,
in which case the `Map{map_id:03d}` formatting inside `create_event` raises
and the step ends in the failure branch whatever the record store would do. -/
def eeMapId (gd : GameDataSchema) : Option Int :=
  match gd.locations with
  | [] => some 1
  | l :: _ => l.id

/-- The completed task value produced by the EventEngineer's success branch
(rmmz_agents.py:548-549). -/
def completeEETask (t : AgentTask) (eventId mapId : Int) : AgentTask :=
  { t with status := "completed", result := some [("event_id", eventId), ("map_id", mapId)] }

/-- `EventEngineerAgent.process` (rmmz_agents.py:427-566).  The claim happens
for any selected task; the creation call is only attempted when tools are
present and the task type is exactly `"cutscene_creation"` — tasks of type
`event_creation` / `dialogue_creation` are claimed and then left in the queue
as in_progress.  Failure mirrors the WorldBuilder: status failed, task kept,
`current_task` left pointing at the (aliased) failed task. -/
def event_engineer_process (tools : Option ToolResult) (s : GameImplementationState) :
    GameImplementationState :=
  let ee := s.event_engineer.getD initEventEngineerState
  let completed := s.director.completed_tasks
  match s.director.task_queue.find? (eePred completed) with
  | none => { s with event_engineer := some ee }
  | some t =>
    let claimed := claimTask "event_engineer" t
    let queue1 := replaceFirst (eePred completed) (fun _ => claimed) s.director.task_queue
    let claimedState : GameImplementationState :=
      { s with
        director := { s.director with task_queue := queue1 }
        event_engineer := some { ee with current_task := some claimed } }
    match tools with
    | none => claimedState
    | some r =>
      if t.type = "cutscene_creation" then
        match r, eeMapId s.game_data with
        | ToolResult.ok eventId, some mapId =>
          { s with
            director := { s.director with
              task_queue := queue1.filter (fun x => x.id != t.id)
              completed_tasks := completed ++ [t.id] }
            event_engineer := some { ee with
              events_created := ee.events_created ++
                [{ id := eventId, map_id := mapId, name := "Intro Cutscene", type := "cutscene" }]
              current_task := none
              completed_tasks := ee.completed_tasks ++ [t.id] }
            implementation_progress := s.implementation_progress + 1/10 }
        | _, _ =>
          { s with
            director := { s.director with
              task_queue := replaceFirst (eePred completed) (fun _ => failTask claimed)
                s.director.task_queue }
            event_engineer := some { ee with current_task := some (failTask claimed) } }
      else claimedState

/-! ### Idle roles (rmmz_agents.py: CombatSystem, AssetManager, Tester) -/

/-- Default `CombatSystemAgentState` (rmmz_agents.py:578). -/
def initCombatSystemState : CombatSystemAgentState :=
  { agent_id := "combat_system", agent_type := "combat_system" }

/-- Default `AssetManagerAgentState` (rmmz_agents.py:602). -/
def initAssetManagerState : AssetManagerAgentState :=
  { agent_id := "asset_manager", agent_type := "asset_manager" }

/-- Default `TestingAgentState` (rmmz_agents.py:625). -/
def initTestingAgentState : TestingAgentState :=
  { agent_id := "tester", agent_type := "tester" }

/-- `CombatSystemAgent.process` (rmmz_agents.py:574-590): lazily initialises
its own role state and does nothing else. -/
def combat_system_process (s : GameImplementationState) : GameImplementationState :=
  { s with combat_system := some (s.combat_system.getD initCombatSystemState) }

/-- `AssetManagerAgent.process` (rmmz_agents.py:598-613): lazily initialises
its own role state and does nothing else. -/
def asset_manager_process (s : GameImplementationState) : GameImplementationState :=
  { s with asset_manager := some (s.asset_manager.getD initAssetManagerState) }

/-- `TestingAgent.process` (rmmz_agents.py:621-636): lazily initialises its
own role state and does nothing else. -/
def tester_process (s : GameImplementationState) : GameImplementationState :=
  { s with tester := some (s.tester.getD initTestingAgentState) }

/-! ### Router and engine (rmmz_agents.py:638-753) -/

/-- One iteration of the router's queue scan (rmmz_agents.py:673-690):
the decision the loop body takes for a single task (`none` = continue
scanning).  Dependencies are checked only for the EventEngineer's kinds. -/
def routeTask (completed : List String) (t : AgentTask) : Option String :=
  if t.status == "pending" then
    if pyStartsWith t.type "map" then some "world_builder"
    else if eeKinds.contains t.type then
      if t.dependencies.all (fun d => completed.contains d) then some "event_engineer"
      else none
    else if (["skill_creation", "enemy_creation", "troop_creation"] : List String).contains t.type then
      some "combat_system"
    else if t.type == "asset_management" then some "asset_manager"
    else none
  else none

/-- `route_implementation` (rmmz_agents.py:667-697). -/
def route_implementation (s : GameImplementationState) : String :=
  if s.current_stage = "planning" then "director"
  else
    match s.director.task_queue.findSome? (routeTask s.director.completed_tasks) with
    | some r => r
    | none => if s.current_stage = "testing" then "tester" else "director"

/-- The workflow graph's fixed role→process mapping (rmmz_agents.py:659-664). -/
def dispatch (role : String) (tools : Option ToolResult) (s : GameImplementationState) :
    GameImplementationState :=
  if role = "world_builder" then world_builder_process tools s
  else if role = "event_engineer" then event_engineer_process tools s
  else if role = "combat_system" then combat_system_process s
  else if role = "asset_manager" then asset_manager_process s
  else if role = "tester" then tester_process s
  else director_process s

/-- One engine step: the router selects a role and that role's `process`
runs once (rmmz_agents.py:700-718, 767-769). -/
def engineStep (tools : Option ToolResult) (s : GameImplementationState) :
    GameImplementationState :=
  dispatch (route_implementation s) tools s

/-- `initialize_game_state` (rmmz_agents.py:723-753). -/
def initialize_game_state (title description : String) : GameImplementationState :=
  { game_data := { metadata := { title := title, description := description, creator := "RPG Maker Agents" } }
    director := { agent_id := "director", agent_type := "director" }
    current_stage := "planning"
    implementation_progress := 0
    log := [] }

/-- The run from the initial state: `n` engine steps, the step-`k` creation
call outcome given by `oracle k` (models `run_demo`'s loop without its early
exit, which only shortens the observed trace). -/
def runSteps (oracle : ℕ → Option ToolResult) (s0 : GameImplementationState) :
    ℕ → GameImplementationState
  | 0 => s0
  | n + 1 => engineStep (oracle n) (runSteps oracle s0 n)

/-! ### Record store facade (src/rmmz_tools.py)

The JSON file store is modelled as in-memory record families; `_load_json` /
`_save_json` I/O and backup copying are outside the shallow embedding.  Each
family keeps only the fields the allocation logic reads (the integer `id`;
events are keyed by their stringified integer id in the map file, modelled
as the list of those integer keys). -/

/-- `next_id = max(existing_ids) + 1 if existing_ids else 1` — the allocation
expression shared by every creation call in rmmz_tools.py. -/
def nextIdFrom (ids : List Int) : Int :=
  match ids with
  | [] => 1
  | x :: xs => xs.foldl max x + 1

/-- One entry of `self.map_infos` (a value of the MapInfos.json dict). -/
structure MapInfoRec where
  id : Int
  name : String
  order : Int
deriving DecidableEq, Repr

/-- One entry of a per-domain record array (Actors.json, Classes.json,
Skills.json, Enemies.json, CommonEvents.json); only `id` and `name` matter
to the allocation contract. -/
structure DataRec where
  id : Int
  name : String
deriving DecidableEq, Repr

/-- The record families `RPGMakerTools._load_data` keeps in memory. -/
structure RPGMakerTools where
  map_infos : List MapInfoRec := []
  actors : List DataRec := []
  classes : List DataRec := []
  skills : List DataRec := []
  enemies : List DataRec := []
  common_events : List DataRec := []
deriving DecidableEq, Repr

/-- `RPGMakerTools.create_map` (rmmz_tools.py:172-221): allocate the next map
id from the `map_infos` ids and record the new map info entry.  Returns the
allocated id and the updated store. -/
def create_map (td : RPGMakerTools) (name : String) : Int × RPGMakerTools :=
  let map_ids := td.map_infos.map (fun info => info.id)
  let next_id := nextIdFrom map_ids
  (next_id, { td with map_infos := td.map_infos ++ [{ id := next_id, name := name, order := next_id }] })

/-- `RPGMakerTools.create_event` (rmmz_tools.py:223-282): allocate the next
event id from the integer keys of the map's `events` dict and add the new
key.  The map's events are modelled by their integer key list. -/
def create_event (events : List Int) : Int × List Int :=
  let next_id := nextIdFrom events
  (next_id, events ++ [next_id])

/-- `RPGMakerTools.create_actor` (rmmz_tools.py:286-317). -/
def create_actor (td : RPGMakerTools) (name : String) : Int × RPGMakerTools :=
  let next_id := nextIdFrom (td.actors.map (fun a => a.id))
  (next_id, { td with actors := td.actors ++ [{ id := next_id, name := name }] })

/-- `RPGMakerTools.create_class` (rmmz_tools.py:319-342). -/
def create_class (td : RPGMakerTools) (name : String) : Int × RPGMakerTools :=
  let next_id := nextIdFrom (td.classes.map (fun c => c.id))
  (next_id, { td with classes := td.classes ++ [{ id := next_id, name := name }] })

/-- `RPGMakerTools.create_skill` (rmmz_tools.py:346-389). -/
def create_skill (td : RPGMakerTools) (name : String) : Int × RPGMakerTools :=
  let next_id := nextIdFrom (td.skills.map (fun sk => sk.id))
  (next_id, { td with skills := td.skills ++ [{ id := next_id, name := name }] })

/-- `RPGMakerTools.create_enemy` (rmmz_tools.py:391-432). -/
def create_enemy (td : RPGMakerTools) (name : String) : Int × RPGMakerTools :=
  let next_id := nextIdFrom (td.enemies.map (fun e => e.id))
  (next_id, { td with enemies := td.enemies ++ [{ id := next_id, name := name }] })

/-- `RPGMakerTools.create_common_event` (rmmz_tools.py:541-563). -/
def create_common_event (td : RPGMakerTools) (name : String) : Int × RPGMakerTools :=
  let next_id := nextIdFrom (td.common_events.map (fun e => e.id))
  (next_id, { td with common_events := td.common_events ++ [{ id := next_id, name := name }] })

/-! ### List infrastructure lemmas -/

theorem foldl_max_le (xs : List Int) (x y : Int) (h : y = x ∨ y ∈ xs) :
    y ≤ xs.foldl max x := by
  induction xs generalizing x y with
  | nil =>
    rcases h with rfl | h
    · exact le_refl _
    · simp at h
  | cons c cs ih =>
    simp only [List.foldl_cons]
    rcases h with rfl | h
    · exact le_trans (le_max_left y c) (ih (max y c) (max y c) (Or.inl rfl))
    · rcases List.mem_cons.mp h with rfl | h
      · exact le_trans (le_max_right x y) (ih (max x y) (max x y) (Or.inl rfl))
      · exact ih (max x c) y (Or.inr h)

theorem foldl_max_mem (xs : List Int) (x : Int) :
    xs.foldl max x = x ∨ xs.foldl max x ∈ xs := by
  induction xs generalizing x with
  | nil => left; rfl
  | cons c cs ih =>
    simp only [List.foldl_cons]
    rcases ih (max x c) with h | h
    · rcases max_choice x c with hm | hm
      · left; rw [h, hm]
      · right; rw [h, hm]; exact List.mem_cons_self c cs
    · right; exact List.mem_cons_of_mem c h

/-- Characterisation of the allocator: on a non-empty id list the returned
id is one more than an id that is present and dominates all others, i.e.
`max(existing_ids) + 1`. -/
theorem nextIdFrom_spec (ids : List Int) (h : ids ≠ []) :
    (nextIdFrom ids - 1) ∈ ids ∧ ∀ i ∈ ids, i ≤ nextIdFrom ids - 1 := by
  match ids with
  | [] => exact absurd rfl h
  | x :: xs =>
    simp only [nextIdFrom, add_sub_cancel_right]
    constructor
    · rcases foldl_max_mem xs x with hm | hm
      · rw [hm]; exact List.mem_cons_self x xs
      · exact List.mem_cons_of_mem x hm
    · intro i hi
      exact foldl_max_le xs x i (List.mem_cons.mp hi)

theorem length_replaceFirst (p : α → Bool) (f : α → α) (l : List α) :
    (replaceFirst p f l).length = l.length := by
  induction l with
  | nil => rfl
  | cons x xs ih =>
    by_cases h : p x = true <;> simp [replaceFirst, h, ih]

theorem mem_replaceFirst {a : α} {p : α → Bool} {f : α → α} {l : List α}
    (h : a ∈ replaceFirst p f l) :
    a ∈ l ∨ ∃ x ∈ l, p x = true ∧ a = f x := by
  induction l with
  | nil => simp [replaceFirst] at h
  | cons x xs ih =>
    by_cases hp : p x = true
    · simp only [replaceFirst, if_pos hp] at h
      rcases List.mem_cons.mp h with rfl | h
      · exact Or.inr ⟨x, List.mem_cons_self x xs, hp, rfl⟩
      · exact Or.inl (List.mem_cons_of_mem x h)
    · simp only [replaceFirst, if_neg hp] at h
      rcases List.mem_cons.mp h with rfl | h
      · exact Or.inl (List.mem_cons_self a xs)
      · rcases ih h with h | ⟨y, hy, hpy, rfl⟩
        · exact Or.inl (List.mem_cons_of_mem x h)
        · exact Or.inr ⟨y, List.mem_cons_of_mem x hy, hpy, rfl⟩

theorem replaceFirst_of_find? {p : α → Bool} {f : α → α} {l : List α} {t : α}
    (h : l.find? p = some t) : f t ∈ replaceFirst p f l := by
  induction l with
  | nil => simp [List.find?] at h
  | cons x xs ih =>
    by_cases hp : p x = true
    · rw [List.find?_cons_of_pos _ hp] at h
      cases h
      simp only [replaceFirst, if_pos hp]
      exact List.mem_cons_self _ _
    · rw [List.find?_cons_of_neg _ (by simpa using hp)] at h
      simp only [replaceFirst, if_neg hp]
      exact List.mem_cons_of_mem x (ih h)

/-- Number of pending tasks in a queue. -/
def pendingCount : List AgentTask → ℕ
  | [] => 0
  | t :: ts => (if t.status == "pending" then 1 else 0) + pendingCount ts

theorem pendingCount_filter_le (q : AgentTask → Bool) (l : List AgentTask) :
    pendingCount (l.filter q) ≤ pendingCount l := by
  induction l with
  | nil => exact le_refl _
  | cons x xs ih =>
    by_cases h : q x = true
    · simp only [List.filter_cons, if_pos h, pendingCount]
      exact Nat.add_le_add_left ih _
    · simp only [List.filter_cons, if_neg h]
      exact le_trans ih (Nat.le_add_left _ _)

theorem pendingCount_replaceFirst {p : AgentTask → Bool} {f : AgentTask → AgentTask}
    {l : List AgentTask} {t : AgentTask}
    (hp : ∀ x, p x = true → (x.status == "pending") = true)
    (hf : ∀ x, ((f x).status == "pending") = false)
    (h : l.find? p = some t) :
    pendingCount (replaceFirst p f l) + 1 = pendingCount l := by
  induction l with
  | nil => simp [List.find?] at h
  | cons x xs ih =>
    by_cases hpx : p x = true
    · simp only [replaceFirst, if_pos hpx, pendingCount, hf x, hp x hpx]
      simp [Nat.add_comm]
    · rw [List.find?_cons_of_neg _ (by simpa using hpx)] at h
      simp only [replaceFirst, if_neg hpx, pendingCount]
      rw [Nat.add_assoc, ih h]

theorem findSome?_append_first {α β} (g : α → Option β) (l₁ l₂ : List α) (t : α) (b : β)
    (h1 : ∀ x ∈ l₁, g x = none) (h2 : g t = some b) :
    (l₁ ++ t :: l₂).findSome? g = some b := by
  induction l₁ with
  | nil => simp [List.findSome?, h2]
  | cons x xs ih =>
    have hx : g x = none := h1 x (List.mem_cons_self x xs)
    simp only [List.cons_append, List.findSome?, hx]
    exact ih (fun y hy => h1 y (List.mem_cons_of_mem x hy))

/-! ### Per-process frame lemmas -/

theorem wb_stage (o : Option ToolResult) (s : GameImplementationState) :
    (world_builder_process o s).current_stage = s.current_stage := by
  simp only [world_builder_process]
  split
  · rfl
  · split <;> rfl

theorem ee_stage (o : Option ToolResult) (s : GameImplementationState) :
    (event_engineer_process o s).current_stage = s.current_stage := by
  simp only [event_engineer_process]
  split
  · rfl
  · split
    · rfl
    · split
      · split <;> rfl
      · rfl

theorem director_stage (s : GameImplementationState) (h : s.current_stage ≠ "planning") :
    director_process s = s := by
  simp [director_process, h]

theorem wb_progress (o : Option ToolResult) (s : GameImplementationState) :
    (world_builder_process o s).implementation_progress = s.implementation_progress ∨
      (world_builder_process o s).implementation_progress = s.implementation_progress + 1/10 := by
  simp only [world_builder_process]
  split
  · exact Or.inl rfl
  · split
    · exact Or.inl rfl
    · exact Or.inl rfl
    · exact Or.inr rfl

theorem ee_progress (o : Option ToolResult) (s : GameImplementationState) :
    (event_engineer_process o s).implementation_progress = s.implementation_progress ∨
      (event_engineer_process o s).implementation_progress = s.implementation_progress + 1/10 := by
  simp only [event_engineer_process]
  split
  · exact Or.inl rfl
  · split
    · exact Or.inl rfl
    · split
      · split
        · exact Or.inr rfl
        · exact Or.inl rfl
      · exact Or.inl rfl

theorem director_progress (s : GameImplementationState) :
    (director_process s).implementation_progress = s.implementation_progress := by
  simp only [director_process]
  split <;> rfl

/-- Evaluating the role dispatch table at `"director"`. -/
theorem dispatch_director (o : Option ToolResult) (s : GameImplementationState) :
    dispatch "director" o s = director_process s := rfl

/-- After any engine step the stage is `"implementation"` when the input
state was planning, and is otherwise unchanged. -/
theorem engineStep_stage (o : Option ToolResult) (s : GameImplementationState) :
    (engineStep o s).current_stage =
      if s.current_stage = "planning" then "implementation" else s.current_stage := by
  by_cases h : s.current_stage = "planning"
  · have hr : route_implementation s = "director" := by simp [route_implementation, h]
    rw [if_pos h]
    show (dispatch (route_implementation s) o s).current_stage = "implementation"
    rw [hr, dispatch_director]
    simp [director_process, h]
  · rw [if_neg h]
    show (dispatch (route_implementation s) o s).current_stage = s.current_stage
    unfold dispatch
    split_ifs
    · exact wb_stage o s
    · exact ee_stage o s
    · rfl
    · rfl
    · rfl
    · rw [director_stage s h]

/-- Any engine step either leaves the progress scalar unchanged or adds the
fixed increment 1/10. -/
theorem engineStep_progress (o : Option ToolResult) (s : GameImplementationState) :
    (engineStep o s).implementation_progress = s.implementation_progress ∨
      (engineStep o s).implementation_progress = s.implementation_progress + 1/10 := by
  unfold engineStep dispatch
  split_ifs
  · exact wb_progress o s
  · exact ee_progress o s
  · exact Or.inl rfl
  · exact Or.inl rfl
  · exact Or.inl rfl
  · exact Or.inl (director_progress s)

/-! ### Progress invariant -/

/-- Inductive invariant of the run: while planning the progress is zero, and
afterwards the progress plus a tenth per still-pending task stays below the
2/10 contributed by the two planning-stage tasks. -/
def ProgressInv (s : GameImplementationState) : Prop :=
  (s.current_stage = "planning" → s.implementation_progress = 0)
  ∧ (s.current_stage ≠ "planning" →
      s.implementation_progress + (pendingCount s.director.task_queue : ℚ) / 10 ≤ 1/5)

theorem wbPred_pending (x : AgentTask) (hx : wbPred x = true) :
    (x.status == "pending") = true := by
  simp only [wbPred, Bool.and_eq_true] at hx
  exact hx.2

theorem eePred_pending (completed : List String) (x : AgentTask)
    (hx : eePred completed x = true) : (x.status == "pending") = true := by
  simp only [eePred, Bool.and_eq_true] at hx
  exact hx.1.2

theorem wb_inv (o : Option ToolResult) (s : GameImplementationState)
    (h : s.implementation_progress + (pendingCount s.director.task_queue : ℚ) / 10 ≤ 1/5) :
    (world_builder_process o s).implementation_progress
      + (pendingCount (world_builder_process o s).director.task_queue : ℚ) / 10 ≤ 1/5 := by
  rcases hf : s.director.task_queue.find? wbPred with _ | t
  · simpa [world_builder_process, hf] using h
  · have hclaim : pendingCount (replaceFirst wbPred
        (fun _ => claimTask "world_builder" t) s.director.task_queue) + 1
        = pendingCount s.director.task_queue :=
      pendingCount_replaceFirst wbPred_pending (fun _ => rfl) hf
    have hfail : pendingCount (replaceFirst wbPred
        (fun _ => failTask (claimTask "world_builder" t)) s.director.task_queue) + 1
        = pendingCount s.director.task_queue :=
      pendingCount_replaceFirst wbPred_pending (fun _ => rfl) hf
    rcases o with _ | r
    · simp only [world_builder_process, hf]
      have := hclaim
      have hc : (pendingCount (replaceFirst wbPred
          (fun _ => claimTask "world_builder" t) s.director.task_queue) : ℚ) + 1
          = pendingCount s.director.task_queue := by exact_mod_cast this
      linarith
    · rcases r with mapId | _
      · simp only [world_builder_process, hf]
        have hfil := pendingCount_filter_le (fun x => x.id != t.id)
          (replaceFirst wbPred (fun _ => claimTask "world_builder" t) s.director.task_queue)
        have hc : (pendingCount (replaceFirst wbPred
            (fun _ => claimTask "world_builder" t) s.director.task_queue) : ℚ) + 1
            = pendingCount s.director.task_queue := by exact_mod_cast hclaim
        have hfq : (pendingCount ((replaceFirst wbPred
            (fun _ => claimTask "world_builder" t) s.director.task_queue).filter
              (fun x => x.id != t.id)) : ℚ)
            ≤ pendingCount (replaceFirst wbPred
              (fun _ => claimTask "world_builder" t) s.director.task_queue) := by
          exact_mod_cast hfil
        linarith
      · simp only [world_builder_process, hf]
        have hc : (pendingCount (replaceFirst wbPred
            (fun _ => failTask (claimTask "world_builder" t)) s.director.task_queue) : ℚ) + 1
            = pendingCount s.director.task_queue := by exact_mod_cast hfail
        linarith

theorem ee_inv (o : Option ToolResult) (s : GameImplementationState)
    (h : s.implementation_progress + (pendingCount s.director.task_queue : ℚ) / 10 ≤ 1/5) :
    (event_engineer_process o s).implementation_progress
      + (pendingCount (event_engineer_process o s).director.task_queue : ℚ) / 10 ≤ 1/5 := by
  rcases hf : s.director.task_queue.find? (eePred s.director.completed_tasks) with _ | t
  · simpa [event_engineer_process, hf] using h
  · have hclaim : pendingCount (replaceFirst (eePred s.director.completed_tasks)
        (fun _ => claimTask "event_engineer" t) s.director.task_queue) + 1
        = pendingCount s.director.task_queue :=
      pendingCount_replaceFirst (eePred_pending _) (fun _ => rfl) hf
    have hcq : (pendingCount (replaceFirst (eePred s.director.completed_tasks)
        (fun _ => claimTask "event_engineer" t) s.director.task_queue) : ℚ) + 1
        = pendingCount s.director.task_queue := by exact_mod_cast hclaim
    have hfail : pendingCount (replaceFirst (eePred s.director.completed_tasks)
        (fun _ => failTask (claimTask "event_engineer" t)) s.director.task_queue) + 1
        = pendingCount s.director.task_queue :=
      pendingCount_replaceFirst (eePred_pending _) (fun _ => rfl) hf
    have hfq : (pendingCount (replaceFirst (eePred s.director.completed_tasks)
        (fun _ => failTask (claimTask "event_engineer" t)) s.director.task_queue) : ℚ) + 1
        = pendingCount s.director.task_queue := by exact_mod_cast hfail
    rcases o with _ | r
    · simp only [event_engineer_process, hf]
      linarith
    · by_cases hty : t.type = "cutscene_creation"
      · rcases r with eventId | _
        · rcases hmid : eeMapId s.game_data with _ | mapId
          · simp only [event_engineer_process, hf, hty, if_pos, hmid]
            linarith
          · simp only [event_engineer_process, hf, hty, if_pos, hmid]
            have hfil := pendingCount_filter_le (fun x => x.id != t.id)
              (replaceFirst (eePred s.director.completed_tasks)
                (fun _ => claimTask "event_engineer" t) s.director.task_queue)
            have hfilq : (pendingCount ((replaceFirst (eePred s.director.completed_tasks)
                (fun _ => claimTask "event_engineer" t) s.director.task_queue).filter
                  (fun x => x.id != t.id)) : ℚ)
                ≤ pendingCount (replaceFirst (eePred s.director.completed_tasks)
                  (fun _ => claimTask "event_engineer" t) s.director.task_queue) := by
              exact_mod_cast hfil
            linarith
        · simp only [event_engineer_process, hf, hty, if_pos]
          linarith
      · simp only [event_engineer_process, hf, if_neg hty]
        linarith

theorem engineStep_inv (o : Option ToolResult) (s : GameImplementationState)
    (h : ProgressInv s) : ProgressInv (engineStep o s) := by
  constructor
  · intro hp
    have := engineStep_stage o s
    rw [hp] at this
    by_cases hpl : s.current_stage = "planning"
    · rw [if_pos hpl] at this
      exact absurd this.symm (by decide)
    · rw [if_neg hpl] at this
      exact absurd this.symm hpl
  · intro _
    by_cases hpl : s.current_stage = "planning"
    · have hr : route_implementation s = "director" := by
        simp [route_implementation, hpl]
      have hstep : engineStep o s = director_process s := by
        unfold engineStep
        rw [hr, dispatch_director]
      rw [hstep]
      simp only [director_process, if_pos hpl]
      rw [h.1 hpl]
      norm_num [pendingCount, townTask, introCutsceneTask]
    · have h2 := h.2 hpl
      unfold engineStep dispatch
      split_ifs
      · exact wb_inv o s h2
      · exact ee_inv o s h2
      · simpa [combat_system_process] using h2
      · simpa [asset_manager_process] using h2
      · simpa [tester_process] using h2
      · rw [director_stage s hpl]; exact h2

theorem runSteps_inv (oracle : ℕ → Option ToolResult) (title description : String) (n : ℕ) :
    ProgressInv (runSteps oracle (initialize_game_state title description) n) := by
  induction n with
  | zero =>
    constructor
    · intro _; rfl
    · intro hne; exact absurd rfl hne
  | succ n ih => exact engineStep_inv _ _ ih

theorem progress_le_one_of_inv (s : GameImplementationState) (h : ProgressInv s) :
    s.implementation_progress ≤ 1 := by
  by_cases hpl : s.current_stage = "planning"
  · rw [h.1 hpl]; norm_num
  · have h2 := h.2 hpl
    have hc : (0 : ℚ) ≤ (pendingCount s.director.task_queue : ℚ) / 10 := by positivity
    linarith

/-! ### Claim theorems -/

/-- C10: the `process` of the CombatSystem, AssetManager and Tester roles
leaves every component of the workflow state unchanged — the equations give
the whole returned state — except that it installs its own role state
(defaulted when absent); when the role state is already present the process
is the identity, so pending skill/enemy/troop/asset tasks are never claimed,
completed or removed. -/
theorem idle_roles_frame (s : GameImplementationState)
    (c : CombatSystemAgentState) (a : AssetManagerAgentState) (t : TestingAgentState) :
    combat_system_process s
      = { s with combat_system := some (s.combat_system.getD initCombatSystemState) }
    ∧ asset_manager_process s
      = { s with asset_manager := some (s.asset_manager.getD initAssetManagerState) }
    ∧ tester_process s = { s with tester := some (s.tester.getD initTestingAgentState) }
    ∧ (combat_system_process s).director.task_queue = s.director.task_queue
    ∧ (asset_manager_process s).director.task_queue = s.director.task_queue
    ∧ (tester_process s).director.task_queue = s.director.task_queue
    ∧ (combat_system_process s).game_data = s.game_data
    ∧ (combat_system_process s).implementation_progress = s.implementation_progress
    ∧ (combat_system_process s).current_stage = s.current_stage
    ∧ combat_system_process { s with combat_system := some c }
        = { s with combat_system := some c }
    ∧ asset_manager_process { s with asset_manager := some a }
        = { s with asset_manager := some a }
    ∧ tester_process { s with tester := some t } = { s with tester := some t } :=
  ⟨rfl, rfl, rfl, rfl, rfl, rfl, rfl, rfl, rfl, rfl, rfl, rfl⟩

/-- The stage along the run from the initial state: planning exactly at step
0, implementation at every later step. -/
theorem runSteps_stage (oracle : ℕ → Option ToolResult) (title description : String) (n : ℕ) :
    (runSteps oracle (initialize_game_state title description) n).current_stage
      = if n = 0 then "planning" else "implementation" := by
  induction n with
  | zero => rfl
  | succ n ih =>
    have hs := engineStep_stage (oracle n) (runSteps oracle (initialize_game_state title description) n)
    show (engineStep (oracle n) (runSteps oracle (initialize_game_state title description) n)).current_stage = _
    rw [hs, ih, if_neg (Nat.succ_ne_zero n)]
    by_cases h : n = 0
    · rw [if_pos h, if_pos rfl]
    · rw [if_neg h, if_neg (by decide : ¬("implementation" = "planning"))]

/-- C7: from any planning-stage state the router returns the Director
regardless of queue contents (in particular from the initial state), the
Director's planning step moves the stage to implementation, and along every
run from the initial state the stage is planning exactly at step 0 and
implementation at every later step — so the planning→implementation
transition happens exactly once, at the first step, and no later step ever
returns the stage to planning. -/
theorem planning_stage_transition_once (title description : String)
    (oracle : ℕ → Option ToolResult) (n : ℕ) (s : GameImplementationState) :
    route_implementation (initialize_game_state title description) = "director"
    ∧ route_implementation { s with current_stage := "planning" } = "director"
    ∧ (director_process { s with current_stage := "planning" }).current_stage = "implementation"
    ∧ (runSteps oracle (initialize_game_state title description) n).current_stage
        = (if n = 0 then "planning" else "implementation") :=
  ⟨rfl, by simp [route_implementation], by simp [director_process],
    runSteps_stage oracle title description n⟩

/-- C3: along every run from the initial state (whatever outcomes the
record-store oracle produces), `implementation_progress` is non-decreasing,
every step either leaves it unchanged or adds exactly the fixed increment
1/10, and it never exceeds 1. -/
theorem progress_monotone_bounded (title description : String)
    (oracle : ℕ → Option ToolResult) (n : ℕ) :
    (runSteps oracle (initialize_game_state title description) n).implementation_progress
      ≤ (runSteps oracle (initialize_game_state title description) (n+1)).implementation_progress
    ∧ ((runSteps oracle (initialize_game_state title description) (n+1)).implementation_progress
          = (runSteps oracle (initialize_game_state title description) n).implementation_progress
        ∨ (runSteps oracle (initialize_game_state title description) (n+1)).implementation_progress
          = (runSteps oracle (initialize_game_state title description) n).implementation_progress
            + 1/10)
    ∧ (runSteps oracle (initialize_game_state title description) n).implementation_progress ≤ 1
    ∧ (runSteps oracle (initialize_game_state title description) (n+1)).implementation_progress ≤ 1 := by
  have hstep : runSteps oracle (initialize_game_state title description) (n+1)
      = engineStep (oracle n) (runSteps oracle (initialize_game_state title description) n) := rfl
  have hdisj := engineStep_progress (oracle n)
    (runSteps oracle (initialize_game_state title description) n)
  rw [← hstep] at hdisj
  refine ⟨?_, hdisj, ?_, ?_⟩
  · rcases hdisj with h | h
    · rw [h]
    · rw [h]; linarith
  · exact progress_le_one_of_inv _ (runSteps_inv oracle title description n)
  · exact progress_le_one_of_inv _ (runSteps_inv oracle title description (n+1))

/-- C8: every record-creation call of the record store facade allocates
`max(existing_ids) + 1` when the relevant record family is non-empty: the
returned id minus one is an existing id and dominates all existing ids. -/
theorem record_store_next_id :
    (∀ (td : RPGMakerTools) (name : String), td.map_infos ≠ [] →
      ((create_map td name).1 - 1) ∈ td.map_infos.map (fun i => i.id)
      ∧ ∀ i ∈ td.map_infos.map (fun i => i.id), i ≤ (create_map td name).1 - 1)
    ∧ (∀ events : List Int, events ≠ [] →
      ((create_event events).1 - 1) ∈ events
      ∧ ∀ i ∈ events, i ≤ (create_event events).1 - 1)
    ∧ (∀ (td : RPGMakerTools) (name : String), td.actors ≠ [] →
      ((create_actor td name).1 - 1) ∈ td.actors.map (fun a => a.id)
      ∧ ∀ i ∈ td.actors.map (fun a => a.id), i ≤ (create_actor td name).1 - 1)
    ∧ (∀ (td : RPGMakerTools) (name : String), td.classes ≠ [] →
      ((create_class td name).1 - 1) ∈ td.classes.map (fun c => c.id)
      ∧ ∀ i ∈ td.classes.map (fun c => c.id), i ≤ (create_class td name).1 - 1)
    ∧ (∀ (td : RPGMakerTools) (name : String), td.skills ≠ [] →
      ((create_skill td name).1 - 1) ∈ td.skills.map (fun sk => sk.id)
      ∧ ∀ i ∈ td.skills.map (fun sk => sk.id), i ≤ (create_skill td name).1 - 1)
    ∧ (∀ (td : RPGMakerTools) (name : String), td.enemies ≠ [] →
      ((create_enemy td name).1 - 1) ∈ td.enemies.map (fun e => e.id)
      ∧ ∀ i ∈ td.enemies.map (fun e => e.id), i ≤ (create_enemy td name).1 - 1)
    ∧ (∀ (td : RPGMakerTools) (name : String), td.common_events ≠ [] →
      ((create_common_event td name).1 - 1) ∈ td.common_events.map (fun e => e.id)
      ∧ ∀ i ∈ td.common_events.map (fun e => e.id), i ≤ (create_common_event td name).1 - 1) :=
  ⟨fun td _ h => nextIdFrom_spec _ (by simpa using h),
   fun events h => nextIdFrom_spec events h,
   fun td _ h => nextIdFrom_spec _ (by simpa using h),
   fun td _ h => nextIdFrom_spec _ (by simpa using h),
   fun td _ h => nextIdFrom_spec _ (by simpa using h),
   fun td _ h => nextIdFrom_spec _ (by simpa using h),
   fun td _ h => nextIdFrom_spec _ (by simpa using h)⟩

/-- A concrete record store with non-empty families, for the C8 witness. -/
def c8Tools : RPGMakerTools :=
  { map_infos := [{ id := 1, name := "Town", order := 1 }, { id := 3, name := "Cave", order := 2 }]
    actors := [{ id := 4, name := "Hero" }]
    classes := [{ id := 2, name := "Knight" }]
    skills := [{ id := 1, name := "Slash" }, { id := 6, name := "Heal" }]
    enemies := [{ id := 5, name := "Slime" }]
    common_events := [{ id := 7, name := "Opening" }] }

/-- Witness for C8 at a concrete store. -/
theorem record_store_next_id_witness :
    (((create_map c8Tools "Harbor").1 - 1) ∈ c8Tools.map_infos.map (fun i => i.id)
      ∧ ∀ i ∈ c8Tools.map_infos.map (fun i => i.id), i ≤ (create_map c8Tools "Harbor").1 - 1)
    ∧ (((create_event [1, 2]).1 - 1) ∈ [1, 2] ∧ ∀ i ∈ [1, 2], i ≤ (create_event [1, 2]).1 - 1)
    ∧ (((create_actor c8Tools "Mage").1 - 1) ∈ c8Tools.actors.map (fun a => a.id)
      ∧ ∀ i ∈ c8Tools.actors.map (fun a => a.id), i ≤ (create_actor c8Tools "Mage").1 - 1)
    ∧ (((create_class c8Tools "Rogue").1 - 1) ∈ c8Tools.classes.map (fun c => c.id)
      ∧ ∀ i ∈ c8Tools.classes.map (fun c => c.id), i ≤ (create_class c8Tools "Rogue").1 - 1)
    ∧ (((create_skill c8Tools "Fire").1 - 1) ∈ c8Tools.skills.map (fun sk => sk.id)
      ∧ ∀ i ∈ c8Tools.skills.map (fun sk => sk.id), i ≤ (create_skill c8Tools "Fire").1 - 1)
    ∧ (((create_enemy c8Tools "Bat").1 - 1) ∈ c8Tools.enemies.map (fun e => e.id)
      ∧ ∀ i ∈ c8Tools.enemies.map (fun e => e.id), i ≤ (create_enemy c8Tools "Bat").1 - 1)
    ∧ (((create_common_event c8Tools "Ending").1 - 1) ∈ c8Tools.common_events.map (fun e => e.id)
      ∧ ∀ i ∈ c8Tools.common_events.map (fun e => e.id),
          i ≤ (create_common_event c8Tools "Ending").1 - 1) :=
  ⟨record_store_next_id.1 c8Tools "Harbor" (by decide),
   record_store_next_id.2.1 [1, 2] (by decide),
   record_store_next_id.2.2.1 c8Tools "Mage" (by decide),
   record_store_next_id.2.2.2.1 c8Tools "Rogue" (by decide),
   record_store_next_id.2.2.2.2.1 c8Tools "Fire" (by decide),
   record_store_next_id.2.2.2.2.2.1 c8Tools "Bat" (by decide),
   record_store_next_id.2.2.2.2.2.2 c8Tools "Ending" (by decide)⟩

/-- The claim-only state the EventEngineer produces when it selects task `t`
but does not execute it (rmmz_agents.py:458-461 followed by no tool call):
the first matching queue entry becomes the claimed task, which is also
stored as the role's `current_task`; nothing else changes. -/
def eeClaimedState (s : GameImplementationState) (t : AgentTask) : GameImplementationState :=
  { s with
    director :=
      { s.director with
        task_queue :=
          replaceFirst (eePred s.director.completed_tasks)
            (fun _ => claimTask "event_engineer" t) s.director.task_queue }
    event_engineer :=
      some
        { s.event_engineer.getD initEventEngineerState with
          current_task := some (claimTask "event_engineer" t) } }

/-- C9: when the first eligible pending task the EventEngineer's scan selects
has type `event_creation` or `dialogue_creation`, its `process` only claims
it: the whole returned state is the claim-only state — the task sits in the
queue with status in_progress, assigned to the EventEngineer and stored as
`current_task`; it is never completed or failed, no completed-task list
gains its id, and the progress is unchanged.  Only `cutscene_creation`
tasks are ever executed. -/
theorem ee_claims_without_execution (tools : Option ToolResult)
    (s : GameImplementationState) (t : AgentTask)
    (hf : s.director.task_queue.find? (eePred s.director.completed_tasks) = some t)
    (hty : t.type = "event_creation" ∨ t.type = "dialogue_creation") :
    event_engineer_process tools s = eeClaimedState s t
    ∧ claimTask "event_engineer" t ∈ (event_engineer_process tools s).director.task_queue
    ∧ (claimTask "event_engineer" t).status = "in_progress"
    ∧ (claimTask "event_engineer" t).assigned_to = some "event_engineer"
    ∧ (claimTask "event_engineer" t).id = t.id
    ∧ (event_engineer_process tools s).director.completed_tasks = s.director.completed_tasks
    ∧ ((event_engineer_process tools s).event_engineer.getD initEventEngineerState).completed_tasks
        = (s.event_engineer.getD initEventEngineerState).completed_tasks
    ∧ (event_engineer_process tools s).implementation_progress = s.implementation_progress := by
  have hnc : ¬t.type = "cutscene_creation" := by
    rcases hty with h | h <;> rw [h] <;> decide
  have hmain : event_engineer_process tools s = eeClaimedState s t := by
    rcases tools with _ | r
    · simp only [event_engineer_process, hf, eeClaimedState]
    · simp only [event_engineer_process, hf, if_neg hnc, eeClaimedState]
  refine ⟨hmain, ?_, rfl, rfl, rfl, ?_, ?_, ?_⟩
  · rw [hmain]
    exact replaceFirst_of_find? hf
  · rw [hmain]; rfl
  · rw [hmain]; rfl
  · rw [hmain]; rfl

/-- Concrete state with one claimable `event_creation` task, for the C9
witness. -/
def c9Task : AgentTask :=
  { id := "create_meeting_scene", type := "event_creation", description := "demo" }

def c9State : GameImplementationState :=
  { game_data := { metadata := { title := "Demo" } }
    director := { agent_id := "director", agent_type := "director", task_queue := [c9Task] }
    current_stage := "implementation" }

/-- Witness for C9: the EventEngineer claims the event task but leaves it in
the queue unexecuted with the progress untouched. -/
theorem ee_claims_without_execution_witness :
    claimTask "event_engineer" c9Task ∈ (event_engineer_process none c9State).director.task_queue
    ∧ (event_engineer_process none c9State).implementation_progress
        = c9State.implementation_progress :=
  ⟨(ee_claims_without_execution none c9State c9Task (by decide) (Or.inl rfl)).2.1,
   (ee_claims_without_execution none c9State c9Task (by decide) (Or.inl rfl)).2.2.2.2.2.2.2⟩

/-- The WorldBuilder's own role state after a successful execution
(rmmz_agents.py:392-404): map id recorded, current task cleared, task id
appended to the role's completed list. -/
def wbCompletedRole (wb : WorldBuilderAgentState) (t : AgentTask) (mapId : Int) :
    WorldBuilderAgentState :=
  { wb with
    maps_created := wb.maps_created ++ [mapId]
    current_task := none
    completed_tasks := wb.completed_tasks ++ [t.id] }

/-- Concrete Scenario A state: the implementation stage with the single
dependency-free `create_starting_town` map task queued. -/
def scenarioAState : GameImplementationState :=
  { game_data := { metadata := { title := "Demo" } }
    director := { agent_id := "director", agent_type := "director", task_queue := [townTask] }
    current_stage := "implementation" }

/-- C6: whenever the WorldBuilder's scan selects a task and the creation
call succeeds with id `mapId`, the task value is completed with the
`map_id` result payload recorded, its id is appended to both the role's and
the director's completed-task lists, every queue entry with its id is
removed, and the progress grows by exactly the fixed increment 1/10.
In Scenario A the router selects the WorldBuilder and one successful step
empties the queue, completes `create_starting_town` and moves the progress
from 0 to 1/10. -/
theorem wb_success_postconditions :
    (∀ (s : GameImplementationState) (t : AgentTask) (mapId : Int),
      s.director.task_queue.find? wbPred = some t →
      (completeWBTask (claimTask "world_builder" t) mapId).status = "completed"
      ∧ (completeWBTask (claimTask "world_builder" t) mapId).result = some [("map_id", mapId)]
      ∧ (world_builder_process (some (ToolResult.ok mapId)) s).director.completed_tasks
          = s.director.completed_tasks ++ [t.id]
      ∧ (world_builder_process (some (ToolResult.ok mapId)) s).world_builder
          = some (wbCompletedRole (s.world_builder.getD initWorldBuilderState) t mapId)
      ∧ (world_builder_process (some (ToolResult.ok mapId)) s).director.task_queue
          = (replaceFirst wbPred (fun _ => claimTask "world_builder" t)
              s.director.task_queue).filter (fun x => x.id != t.id)
      ∧ (∀ x ∈ (world_builder_process (some (ToolResult.ok mapId)) s).director.task_queue,
          x.id ≠ t.id)
      ∧ (world_builder_process (some (ToolResult.ok mapId)) s).implementation_progress
          = s.implementation_progress + 1/10)
    ∧ route_implementation scenarioAState = "world_builder"
    ∧ (world_builder_process (some (ToolResult.ok 1)) scenarioAState).director.task_queue = []
    ∧ (world_builder_process (some (ToolResult.ok 1)) scenarioAState).director.completed_tasks
        = ["create_starting_town"]
    ∧ ((world_builder_process (some (ToolResult.ok 1)) scenarioAState).world_builder.getD
        initWorldBuilderState).completed_tasks = ["create_starting_town"]
    ∧ (world_builder_process (some (ToolResult.ok 1)) scenarioAState).implementation_progress
        = 1/10 := by
  constructor
  · intro s t mapId hf
    refine ⟨rfl, rfl, ?_, ?_, ?_, ?_, ?_⟩
    · simp only [world_builder_process, hf]
    · simp only [world_builder_process, hf, wbCompletedRole]
    · simp only [world_builder_process, hf]
    · intro x hx
      simp only [world_builder_process, hf] at hx
      have h2 := (List.mem_filter.mp hx).2
      simpa using h2
    · simp only [world_builder_process, hf]
  · refine ⟨by decide, by decide, by decide, by decide, ?_⟩
    show (0 : ℚ) + 1/10 = 1/10
    norm_num

/-- Witness for C6's general part, instantiated at the Scenario A state. -/
theorem wb_success_postconditions_witness :
    (world_builder_process (some (ToolResult.ok 1)) scenarioAState).director.completed_tasks
      = scenarioAState.director.completed_tasks ++ [townTask.id]
    ∧ (world_builder_process (some (ToolResult.ok 1)) scenarioAState).implementation_progress
      = scenarioAState.implementation_progress + 1/10 :=
  ⟨(wb_success_postconditions.1 scenarioAState townTask 1 (by decide)).2.2.1,
   (wb_success_postconditions.1 scenarioAState townTask 1 (by decide)).2.2.2.2.2.2⟩

/-- Concrete state with a pending `map_creation` task whose single dependency
has never completed. -/
def c1Task : AgentTask :=
  { id := "create_blocked_town", type := "map_creation", description := "demo"
    dependencies := ["missing_dep"] }

def c1State : GameImplementationState :=
  { game_data := { metadata := { title := "Demo" } }
    director := { agent_id := "director", agent_type := "director", task_queue := [c1Task] }
    current_stage := "implementation" }

/-- C1 counterexample: the WorldBuilder's `process` claims the pending
`map_creation` task `create_blocked_town` — its status becomes in_progress —
although its dependency `missing_dep` is not among the coordinator's
completed task ids (which are empty). -/
theorem wb_claims_unmet_dependency_cx :
    c1Task.status = "pending"
    ∧ c1Task.dependencies = ["missing_dep"]
    ∧ c1State.director.completed_tasks = []
    ∧ (world_builder_process none c1State).director.task_queue
        = [{ c1Task with status := "in_progress", assigned_to := some "world_builder" }] := by
  refine ⟨rfl, rfl, rfl, ?_⟩
  decide

/-- Concrete state with one claimable `event_creation` task for the
C1 witness. -/
def c1wTask : AgentTask :=
  { id := "create_scene_one", type := "event_creation", description := "demo" }

def c1wState : GameImplementationState :=
  { game_data := { metadata := { title := "Demo" } }
    director := { agent_id := "director", agent_type := "director", task_queue := [c1wTask] }
    current_stage := "implementation" }

/-- C1 (amended): the EventEngineer's `process` never moves a task from
pending to in_progress unless every dependency is among the coordinator's
completed task ids — any in_progress task of its output queue either was
already in the input queue or has all dependencies completed; the
WorldBuilder, by contrast, claims the first pending `map_creation` task of
the queue without any dependency check. -/
theorem dependency_gating_amended :
    (∀ (tools : Option ToolResult) (s : GameImplementationState) (t' : AgentTask),
      t' ∈ (event_engineer_process tools s).director.task_queue →
      t'.status = "in_progress" →
      t' ∈ s.director.task_queue
      ∨ t'.dependencies.all (fun d => s.director.completed_tasks.contains d) = true)
    ∧ (∀ (s : GameImplementationState) (t : AgentTask),
      s.director.task_queue.find? wbPred = some t →
      (world_builder_process none s).director.task_queue
        = replaceFirst wbPred (fun _ => claimTask "world_builder" t) s.director.task_queue) := by
  constructor
  · intro tools s t' hmem hstat
    rcases hf : s.director.task_queue.find? (eePred s.director.completed_tasks) with _ | t
    · simp only [event_engineer_process, hf] at hmem
      exact Or.inl hmem
    · have hft : eePred s.director.completed_tasks t = true := List.find?_some hf
      have hdeps : t.dependencies.all (fun d => s.director.completed_tasks.contains d) = true := by
        simp only [eePred, Bool.and_eq_true] at hft
        exact hft.2
      have hclaimed : ∀ h : t' = claimTask "event_engineer" t,
          t'.dependencies.all (fun d => s.director.completed_tasks.contains d) = true := by
        intro h; rw [h]; exact hdeps
      have hfailed : ¬t' = failTask (claimTask "event_engineer" t) := by
        intro h
        rw [h] at hstat
        have hs : ("failed" : String) = "in_progress" := hstat
        exact absurd hs (by decide)
      rcases tools with _ | r
      · simp only [event_engineer_process, hf] at hmem
        rcases mem_replaceFirst hmem with h | ⟨x, _, _, rfl⟩
        · exact Or.inl h
        · exact Or.inr (hclaimed rfl)
      · by_cases hty : t.type = "cutscene_creation"
        · rcases r with eventId | _
          · rcases hmid : eeMapId s.game_data with _ | mapId
            · simp only [event_engineer_process, hf, if_pos hty, hmid] at hmem
              rcases mem_replaceFirst hmem with h | ⟨x, _, _, heq⟩
              · exact Or.inl h
              · exact absurd heq hfailed
            · simp only [event_engineer_process, hf, if_pos hty, hmid] at hmem
              have hmem' := (List.mem_filter.mp hmem).1
              rcases mem_replaceFirst hmem' with h | ⟨x, _, _, rfl⟩
              · exact Or.inl h
              · exact Or.inr (hclaimed rfl)
          · simp only [event_engineer_process, hf, if_pos hty] at hmem
            rcases mem_replaceFirst hmem with h | ⟨x, _, _, heq⟩
            · exact Or.inl h
            · exact absurd heq hfailed
        · simp only [event_engineer_process, hf, if_neg hty] at hmem
          rcases mem_replaceFirst hmem with h | ⟨x, _, _, rfl⟩
          · exact Or.inl h
          · exact Or.inr (hclaimed rfl)
  · intro s t hf
    simp only [world_builder_process, hf]

/-- Witness for C1 (amended): the EventEngineer conclusion at a concrete
claimed event task, and the WorldBuilder claim equation at the concrete
blocked map task. -/
theorem dependency_gating_amended_witness :
    (claimTask "event_engineer" c1wTask ∈ c1wState.director.task_queue
      ∨ (claimTask "event_engineer" c1wTask).dependencies.all
          (fun d => c1wState.director.completed_tasks.contains d) = true)
    ∧ (world_builder_process none c1State).director.task_queue
        = replaceFirst wbPred (fun _ => claimTask "world_builder" c1Task)
            c1State.director.task_queue :=
  ⟨dependency_gating_amended.1 none c1wState (claimTask "event_engineer" c1wTask)
      (by decide) rfl,
   dependency_gating_amended.2 c1State c1Task (by decide)⟩

/-- Concrete state whose only task is a pending `map_creation` task with an
unmet dependency, for the C2 counterexample. -/
def c2Task : AgentTask :=
  { id := "create_blocked_map", type := "map_creation", description := "demo"
    dependencies := ["nonexistent"] }

def c2State : GameImplementationState :=
  { game_data := { metadata := { title := "Demo" } }
    director := { agent_id := "director", agent_type := "director", task_queue := [c2Task] }
    current_stage := "implementation" }

/-- C2 counterexample: outside planning, the router returns the WorldBuilder
for the first pending `map_creation` task even though its dependency
`nonexistent` is not among the completed task ids (which are empty) — the
kind→role mapping is applied without the `dependencies_met` condition for
map tasks. -/
theorem route_unmet_dependency_cx :
    route_implementation c2State = "world_builder"
    ∧ c2State.director.task_queue = [c2Task]
    ∧ c2Task.dependencies = ["nonexistent"]
    ∧ c2State.director.completed_tasks = [] := by
  refine ⟨?_, rfl, rfl, rfl⟩
  decide

/-- C2 (amended): outside planning the router returns, for the first pending
task the scan can select (all earlier tasks yielding no selection, i.e.
non-pending, unknown-kind, or event-family with unmet dependencies), the
role given by the fixed kind→role table — but the `dependencies_met`
condition is applied only to the EventEngineer's kinds: a pending
event/cutscene/dialogue task with unmet dependencies is skipped and
scanning continues, while map, combat and asset kinds are returned without
any dependency check. -/
theorem route_first_match_amended :
    (∀ (s : GameImplementationState) (l₁ l₂ : List AgentTask) (t : AgentTask) (r : String),
      s.current_stage ≠ "planning" →
      s.director.task_queue = l₁ ++ t :: l₂ →
      (∀ x ∈ l₁, routeTask s.director.completed_tasks x = none) →
      routeTask s.director.completed_tasks t = some r →
      route_implementation s = r)
    ∧ (∀ (completed : List String) (t : AgentTask),
      t.status = "pending" →
      (t.type = "event_creation" ∨ t.type = "cutscene_creation" ∨ t.type = "dialogue_creation") →
      t.dependencies.all (fun d => completed.contains d) = false →
      routeTask completed t = none) := by
  constructor
  · intro s l₁ l₂ t r hst hq h1 h2
    unfold route_implementation
    rw [if_neg hst, hq, findSome?_append_first _ l₁ l₂ t r h1 h2]
  · intro completed t h1 hty h3
    have hb : (t.status == "pending") = true := by rw [h1]; rfl
    unfold routeTask
    rcases hty with h | h | h <;> rw [hb, h, h3] <;> decide

/-- Concrete two-task queue for the C2 witness: a blocked cutscene task
followed by an unblocked map task. -/
def c2wBlocked : AgentTask :=
  { id := "create_blocked_scene", type := "cutscene_creation", description := "demo"
    dependencies := ["nope"] }

def c2wMap : AgentTask :=
  { id := "create_second_town", type := "map_creation", description := "demo" }

def c2wState : GameImplementationState :=
  { game_data := { metadata := { title := "Demo" } }
    director := { agent_id := "director", agent_type := "director"
                  task_queue := [c2wBlocked, c2wMap] }
    current_stage := "implementation" }

/-- Witness for C2 (amended): the blocked cutscene task yields no selection,
so the router skips it and returns the WorldBuilder for the later map task. -/
theorem route_first_match_amended_witness :
    route_implementation c2wState = "world_builder"
    ∧ routeTask ([] : List String) c2wBlocked = none :=
  ⟨route_first_match_amended.1 c2wState [c2wBlocked] [] c2wMap "world_builder"
      (by decide) rfl (by decide) (by decide),
   route_first_match_amended.2 [] c2wBlocked rfl (Or.inr (Or.inl rfl)) (by decide)⟩

/-- Concrete state with one pending map task, for the C4 counterexample. -/
def c4Task : AgentTask :=
  { id := "create_harbor_town", type := "map_creation", description := "demo" }

def c4State : GameImplementationState :=
  { game_data := { metadata := { title := "Demo" } }
    director := { agent_id := "director", agent_type := "director", task_queue := [c4Task] }
    current_stage := "implementation" }

/-- C4 counterexample: after a failing creation call the WorldBuilder's
`current_task` is NOT cleared to none — it still holds the (aliased) failed
task, even though the task is indeed failed and still in the queue. -/
theorem wb_failure_current_task_cx :
    ((world_builder_process (some ToolResult.err) c4State).world_builder.getD
        initWorldBuilderState).current_task
      = some (failTask (claimTask "world_builder" c4Task))
    ∧ some (failTask (claimTask "world_builder" c4Task)) ≠ (none : Option AgentTask)
    ∧ (world_builder_process (some ToolResult.err) c4State).director.task_queue
      = [failTask (claimTask "world_builder" c4Task)] := by
  refine ⟨?_, by decide, ?_⟩ <;> decide

/-- Concrete state with one executable cutscene task, for the C4 witness. -/
def c4eTask : AgentTask :=
  { id := "create_intro_cutscene", type := "cutscene_creation", description := "demo" }

def c4eState : GameImplementationState :=
  { game_data := { metadata := { title := "Demo" } }
    director := { agent_id := "director", agent_type := "director", task_queue := [c4eTask] }
    current_stage := "implementation" }

/-- C4 (amended): when a worker has claimed a task and the external creation
call raises, the worker's `process` returns a state in which that task has
status failed and is still present in the task_queue, the progress and the
completed-task lists are unchanged, and no exception escapes (the process is
a total function); however the role's `current_task` is NOT cleared — it
remains set to the failed task. -/
theorem worker_failure_amended :
    (∀ (s : GameImplementationState) (t : AgentTask),
      s.director.task_queue.find? wbPred = some t →
      failTask (claimTask "world_builder" t)
          ∈ (world_builder_process (some ToolResult.err) s).director.task_queue
      ∧ (failTask (claimTask "world_builder" t)).status = "failed"
      ∧ (world_builder_process (some ToolResult.err) s).implementation_progress
          = s.implementation_progress
      ∧ (world_builder_process (some ToolResult.err) s).director.completed_tasks
          = s.director.completed_tasks
      ∧ (world_builder_process (some ToolResult.err) s).world_builder
          = some { s.world_builder.getD initWorldBuilderState with
              current_task := some (failTask (claimTask "world_builder" t)) })
    ∧ (∀ (s : GameImplementationState) (t : AgentTask),
      s.director.task_queue.find? (eePred s.director.completed_tasks) = some t →
      t.type = "cutscene_creation" →
      failTask (claimTask "event_engineer" t)
          ∈ (event_engineer_process (some ToolResult.err) s).director.task_queue
      ∧ (event_engineer_process (some ToolResult.err) s).implementation_progress
          = s.implementation_progress
      ∧ (event_engineer_process (some ToolResult.err) s).director.completed_tasks
          = s.director.completed_tasks
      ∧ (event_engineer_process (some ToolResult.err) s).event_engineer
          = some { s.event_engineer.getD initEventEngineerState with
              current_task := some (failTask (claimTask "event_engineer" t)) }) := by
  constructor
  · intro s t hf
    refine ⟨?_, rfl, ?_, ?_, ?_⟩
    · simp only [world_builder_process, hf]
      exact replaceFirst_of_find? hf
    · simp only [world_builder_process, hf]
    · simp only [world_builder_process, hf]
    · simp only [world_builder_process, hf]
  · intro s t hf hty
    refine ⟨?_, ?_, ?_, ?_⟩
    · simp only [event_engineer_process, hf, if_pos hty]
      exact replaceFirst_of_find? hf
    · simp only [event_engineer_process, hf, if_pos hty]
    · simp only [event_engineer_process, hf, if_pos hty]
    · simp only [event_engineer_process, hf, if_pos hty]

/-- Witness for C4 (amended) at the concrete map and cutscene states. -/
theorem worker_failure_amended_witness :
    (world_builder_process (some ToolResult.err) c4State).implementation_progress
      = c4State.implementation_progress
    ∧ (event_engineer_process (some ToolResult.err) c4eState).implementation_progress
      = c4eState.implementation_progress :=
  ⟨(worker_failure_amended.1 c4State c4Task (by decide)).2.2.1,
   (worker_failure_amended.2 c4eState c4eTask (by decide) rfl).2.1⟩

/-- Concrete state in which the EventEngineer executes a cutscene task whose
referenced cutscene entity is absent from the game document. -/
def c5Task : AgentTask :=
  { id := "create_intro_cutscene", type := "cutscene_creation", description := "demo" }

def c5State : GameImplementationState :=
  { game_data := { metadata := { title := "Demo" } }
    director := { agent_id := "director", agent_type := "director", task_queue := [c5Task] }
    current_stage := "implementation" }

/-- C5 counterexample: the EventEngineer runs the cutscene task
`create_intro_cutscene` to successful completion while the referenced
cutscene ("intro cutscene") is absent from `game_data.cutscenes` — yet no
default stub entity is ever attached to the game document: the cutscene
list is still empty afterwards (the default cutscene value is only built as
prompt context). -/
theorem ee_stub_not_attached_cx :
    c5State.game_data.cutscenes = []
    ∧ (event_engineer_process (some (ToolResult.ok 1)) c5State).game_data.cutscenes = []
    ∧ (event_engineer_process (some (ToolResult.ok 1)) c5State).director.completed_tasks
        = ["create_intro_cutscene"] := by
  refine ⟨rfl, ?_, ?_⟩ <;> decide

/-- Concrete state with one map task and no locations, for the C5 witness. -/
def c5wTask : AgentTask :=
  { id := "create_green_field", type := "map_creation", description := "demo" }

def c5wState : GameImplementationState :=
  { game_data := { metadata := { title := "Demo" } }
    director := { agent_id := "director", agent_type := "director", task_queue := [c5wTask] }
    current_stage := "implementation" }

/-- C5 (amended): the WorldBuilder materialises the default stub location
when the referenced location is absent and appends it to the game document
without touching the existing entries (on a successful creation the
location list still grows by exactly one entry, the stub, whose id is then
filled in) and this is never treated as an error; the EventEngineer,
however, never attaches its default cutscene stub — its `process` leaves
the whole game document unchanged. -/
theorem stub_entity_amended :
    (∀ (s : GameImplementationState) (t : AgentTask) (o : Option ToolResult),
      s.director.task_queue.find? wbPred = some t →
      wbFindLocation s.game_data (wbLocName t) = none →
      (∀ i, o ≠ some (ToolResult.ok i)) →
      (world_builder_process o s).game_data.locations
        = s.game_data.locations ++ [wbStub (wbLocName t)])
    ∧ (∀ (s : GameImplementationState) (t : AgentTask) (mapId : Int),
      s.director.task_queue.find? wbPred = some t →
      wbFindLocation s.game_data (wbLocName t) = none →
      (world_builder_process (some (ToolResult.ok mapId)) s).game_data.locations.length
        = s.game_data.locations.length + 1)
    ∧ (∀ (o : Option ToolResult) (s : GameImplementationState),
      (event_engineer_process o s).game_data = s.game_data) := by
  refine ⟨?_, ?_, ?_⟩
  · intro s t o hf hloc ho
    rcases o with _ | r
    · simp only [world_builder_process, hf, wbResolveLocation, wbFindLocation] at *
      rw [hloc]
    · rcases r with i | _
      · exact absurd rfl (ho i)
      · simp only [world_builder_process, hf, wbResolveLocation, wbFindLocation] at *
        rw [hloc]
  · intro s t mapId hf hloc
    simp only [world_builder_process, hf]
    rw [length_replaceFirst]
    simp only [wbResolveLocation, wbFindLocation] at *
    rw [hloc]
    simp
  · intro o s
    simp only [event_engineer_process]
    split
    · rfl
    · split
      · rfl
      · split
        · split <;> rfl
        · rfl

/-- Witness for C5 (amended) at the concrete map-task state with an empty
location list. -/
theorem stub_entity_amended_witness :
    (world_builder_process none c5wState).game_data.locations
      = c5wState.game_data.locations ++ [wbStub (wbLocName c5wTask)]
    ∧ (world_builder_process (some (ToolResult.ok 2)) c5wState).game_data.locations.length
      = c5wState.game_data.locations.length + 1
    ∧ (event_engineer_process none c5wState).game_data = c5wState.game_data :=
  ⟨stub_entity_amended.1 c5wState c5wTask none (by decide) (by decide)
      (fun i h => Option.noConfusion h),
   stub_entity_amended.2.1 c5wState c5wTask 2 (by decide) (by decide),
   stub_entity_amended.2.2 none c5wState⟩
